import Mathlib

/-!
Verification of the SimpleTodo task tracker (C# minimal API + React web client).

Shallow embedding conventions:
* timestamps (`DateTimeOffset` / JS `Date`) are integer milliseconds (`Int`);
* C# `string` state values are Lean `String`s (`"todo"`, `"inProgress"`, `"done"`);
* nullable fields are `Option`;
* the Cosmos item container is a `List TodoItem`, `ReadItemAsync` by id a `find?`;
* `DateTimeOffset.UtcNow`, read several times in one handler, is a single `now`
  parameter (the handlers treat the readings as one instant);
* `TimeSpan.TotalHours >= 1` on a millisecond difference is `3600000 ≤ diff`
  (exact, since the double holds the integer quotient comparison exactly);
* JS `Math.trunc`-style division used by date-fns difference functions is
  `Int.tdiv` / `Int.tmod` (truncation toward zero, remainder sign of dividend).
-/

/-- One hour in milliseconds: the floor used by `UpdateListItem`'s reopen check
(`timeDifference.TotalHours >= 1`). -/
def hourInMs : Int := 3600000

/-- `TodoItem` entity persisted in the `TodoItem` container. -/
structure TodoItem where
  id : String
  listId : String
  name : String
  description : Option String
  state : String
  dueDate : Option Int
  completedDate : Option Int
  createdDate : Option Int
  updatedDate : Option Int
deriving DecidableEq, Repr

/-- Request body record `CreateUpdateTodoItem(name, state, dueDate, completedDate, description)`. -/
structure CreateUpdateTodoItem where
  name : String
  state : String
  dueDate : Option Int
  completedDate : Option Int
  description : Option String
deriving DecidableEq, Repr

/-- The combined reopen test of `TodoEndpointsExtensions.UpdateListItem`
(outer guard at lines 290-292 conjoined with the inner guard at line 300):
old and requested state both `"done"`, both due dates present, due date actually
changed, new due date in the future, and moved forward by at least one hour. -/
def reopenFires (oldState : String) (oldDueDate : Option Int)
    (reqState : String) (reqDueDate : Option Int) (now : Int) : Bool :=
  oldState == "done" && reqState == "done" &&
    (match reqDueDate, oldDueDate with
     | some nd, some od => nd != od && decide (now < nd) && decide (hourInMs ≤ nd - od)
     | _, _ => false)

/-- The reopen test of `ListsRepository.UpdateListItemWithStateLogic` (line 104):
old and requested state both `"done"` and the requested due date present and
strictly after `now` — no "due date changed" precondition and no one-hour floor. -/
def reopenFiresW (oldState newState : String) (newDueDate : Option Int) (now : Int) : Bool :=
  oldState == "done" && newState == "done" &&
    (match newDueDate with
     | some d => decide (now < d)
     | none => false)

/-- Pure core of `TodoEndpointsExtensions.UpdateListItem` (part_000 lines 270-330),
after the existing item has been fetched: field copies and `UpdatedDate`,
then the reopen block (a stand-alone `if`), then the completion / leaving-done /
steady-state chain, which runs unconditionally — also after the reopen block. -/
def updateListItemCore (existingItem : TodoItem) (item : CreateUpdateTodoItem)
    (now : Int) : TodoItem :=
  let oldState := existingItem.state
  let oldDueDate := existingItem.dueDate
  let step1 : TodoItem :=
    { existingItem with
        name := item.name
        description := item.description
        dueDate := item.dueDate
        state := item.state
        updatedDate := some now }
  let step2 : TodoItem :=
    if reopenFires oldState oldDueDate item.state item.dueDate now then
      { step1 with state := "todo", completedDate := none }
    else
      step1
  if item.state == "done" && !(oldState == "done") then
    { step2 with state := "done", completedDate := some (item.completedDate.getD now) }
  else if !(item.state == "done") then
    { step2 with completedDate := none }
  else
    { step2 with completedDate := item.completedDate }

/-- Pure core of `ListsRepository.UpdateListItemWithStateLogic` (part_000 lines
93-126): one single `if` / `else if` chain, so the reopen branch is exclusive
with the later completed-date assignments. -/
def updateListItemWithStateLogicCore (existingItem : TodoItem) (newState : String)
    (newDueDate : Option Int) (newCompletedDate : Option Int) (now : Int) : TodoItem :=
  let oldState := existingItem.state
  let step1 : TodoItem :=
    { existingItem with
        state := newState
        dueDate := newDueDate
        updatedDate := some now }
  if reopenFiresW oldState newState newDueDate now then
    { step1 with state := "todo", completedDate := none }
  else if newState == "done" && !(oldState == "done") then
    { step1 with state := "done", completedDate := some (newCompletedDate.getD now) }
  else if !(newState == "done") then
    { step1 with completedDate := none }
  else
    { step1 with completedDate := newCompletedDate }

/-- `Container.ReadItemAsync` on the items container: lookup by item id
(the item's own id is also its partition key). -/
def readItemAsync (store : List TodoItem) (itemId : String) : Option TodoItem :=
  store.find? (fun i => i.id == itemId)

/-- `ListsRepository.GetListItemAsync` (part_000 lines 70-78): read by id, then
return `null` unless the fetched item's `ListId` matches the requested list. -/
def getListItemAsync (store : List TodoItem) (listId itemId : String) : Option TodoItem :=
  match readItemAsync store itemId with
  | none => none
  | some it => if !(it.listId == listId) then none else some it

/-- `ListsRepository.DeleteListItemAsync` (part_000 lines 80-83): deletes by item
id alone; the `listId` argument is not consulted by the repository itself. -/
def deleteListItemAsync (store : List TodoItem) (itemId : String) : List TodoItem :=
  store.filter (fun i => !(i.id == itemId))

/-- Outcome half of the `DeleteListItem` endpoint's `IResult`. -/
inductive DeleteOutcome
  | notFound
  | noContent
deriving DecidableEq, Repr

/-- `TodoEndpointsExtensions.DeleteListItem` (part_000 lines 332-342): the
list-scoped lookup guards the repository delete; on `null` it returns NotFound
without touching the store. Returns the outcome with the resulting store. -/
def deleteListItemEndpoint (store : List TodoItem) (listId itemId : String) :
    DeleteOutcome × List TodoItem :=
  match getListItemAsync store listId itemId with
  | none => (DeleteOutcome.notFound, store)
  | some _ => (DeleteOutcome.noContent, deleteListItemAsync store itemId)

/-- `ListsRepository.ToListAsync` (part_000 lines 128-152): apply `Skip` when a
skip is given, then `Take` when a batch size is given, then materialise. -/
def toListAsync {α : Type} (queryable : List α) (skip : Option Nat)
    (batchSize : Option Nat) : List α :=
  let afterSkip :=
    match skip with
    | some s => queryable.drop s
    | none => queryable
  match batchSize with
  | some b => afterSkip.take b
  | none => afterSkip

/-- `toZonedTime` of date-fns-tz, modelled as a fixed offset shift for the
supplied timezone (DST transitions are out of scope of the embedding). -/
def toZonedTime (t : Int) (tzOffset : Int) : Int := t + tzOffset

/-- `isPast` of date-fns: strictly before the current instant. The countdown
code applies it to the zone-shifted due date while `Date.now()` stays unshifted. -/
def isPast (t : Int) (now : Int) : Bool := decide (t < now)

/-- Countdown cell of `renderItemColumn` (todoItemListPane lines 478-552):
returns the rendered text and the colour (the colour realises the urgency tier:
green `#107c10` complete/minimal, grey `#666` none, red `#d13438`
overdue/critical, orange `#ff8c00` high, yellow `#ffd700` medium, light green
`#90ee90` low). `city` is the optional location suffix of the text. -/
def renderCountdownColumn (state : String) (originalDueDate : Option Int)
    (now : Int) (tzOffset : Int) (city : Option String) : String × String :=
  if state == "done" then
    ("Complete", "#107c10")
  else
    match originalDueDate with
    | none => ("N/A", "#666")
    | some due =>
      let zonedNow := toZonedTime now tzOffset
      let zonedDue := toZonedTime due tzOffset
      if isPast zonedDue now then
        ("Due!", "#d13438")
      else
        let totalMinutes := Int.tdiv (zonedDue - zonedNow) 60000
        let days := Int.tdiv (zonedDue - zonedNow) 86400000
        let hours := Int.tmod (Int.tdiv (zonedDue - zonedNow) 3600000) 24
        let minutes := Int.tmod totalMinutes 60
        let seconds := Int.tmod (Int.tdiv (zonedDue - zonedNow) 1000) 60
        let countdownColor :=
          if totalMinutes ≤ 60 then "#d13438"
          else if totalMinutes ≤ 360 then "#ff8c00"
          else if totalMinutes ≤ 1440 then "#ffd700"
          else if totalMinutes ≤ 4320 then "#90ee90"
          else "#107c10"
        let locationInfo :=
          match city with
          | some c => " (" ++ c ++ ")"
          | none => ""
        (toString days ++ "d " ++ toString hours ++ "h " ++ toString minutes ++
          "m " ++ toString seconds ++ "s" ++ locationInfo, countdownColor)

/-- `saveTodoItem` of `todoItemDetailPane.tsx` (lines 45-80): the item submitted
to `onEdit`, or `none` when the guard `!props.item?.id` aborts the save. The
due date/time combination (a locale/timezone string round-trip) only feeds the
submitted `dueDate`, so it is abstracted as the already-combined input. -/
def saveTodoItemSubmission (item : TodoItem) (name : String)
    (description : Option String) (combinedDueDate : Option Int) (state : String)
    (now : Int) : Option TodoItem :=
  if item.id == "" then
    none
  else
    some
      { id := item.id
        listId := item.listId
        name := name
        description := description
        dueDate := combinedDueDate
        state := state
        completedDate := if state == "done" then some (item.completedDate.getD now) else none
        createdDate := item.createdDate
        updatedDate := some now }

/-! Concrete inputs used by counterexamples and witnesses. -/

/-- A completed item with no due date. -/
def exDoneNoDue : TodoItem :=
  { id := "item1", listId := "list1", name := "task", description := none,
    state := "done", dueDate := none, completedDate := some 5,
    createdDate := none, updatedDate := none }

/-- A request keeping state `"done"` and supplying no completed date. -/
def reqDoneNoCompleted : CreateUpdateTodoItem :=
  { name := "task", state := "done", dueDate := none, completedDate := none,
    description := none }

/-- A completed item due at instant 0. -/
def exDoneDueZero : TodoItem :=
  { id := "item1", listId := "list1", name := "task", description := none,
    state := "done", dueDate := some 0, completedDate := some 10,
    createdDate := none, updatedDate := none }

/-- A request keeping state `"done"`, pushing the due date two hours out, and
supplying a completed date. -/
def reqReopenWithCompleted : CreateUpdateTodoItem :=
  { name := "task", state := "done", dueDate := some 7200000,
    completedDate := some 99, description := none }

/-- A completed item due at instant 1000. -/
def exDoneDue1000 : TodoItem :=
  { id := "item1", listId := "list1", name := "task", description := none,
    state := "done", dueDate := some 1000, completedDate := some 5,
    createdDate := none, updatedDate := none }

/-- A request keeping state `"done"` and moving the due date to thirty minutes
after instant 0. -/
def reqDonePlus30min : CreateUpdateTodoItem :=
  { name := "task", state := "done", dueDate := some 1800000,
    completedDate := some 5, description := none }

/-- An in-progress item due at instant 42. -/
def exInProgress : TodoItem :=
  { id := "item2", listId := "list1", name := "task", description := none,
    state := "inProgress", dueDate := some 42, completedDate := none,
    createdDate := none, updatedDate := none }

/-- A completion request with no completed date supplied. -/
def reqDoneCompletion : CreateUpdateTodoItem :=
  { name := "task", state := "done", dueDate := some 42, completedDate := none,
    description := none }

/-- A done request whose due date is two hours after instant 0. -/
def reqDoneFarFuture : CreateUpdateTodoItem :=
  { name := "task", state := "done", dueDate := some 7200000,
    completedDate := some 5, description := none }

/-- An item with id `"X"` stored under list `"B"`. -/
def itemInListB : TodoItem :=
  { id := "X", listId := "B", name := "task", description := none,
    state := "todo", dueDate := none, completedDate := none,
    createdDate := none, updatedDate := none }

/-- The item `saveTodoItemSubmission` submits for `exDoneNoDue` with state
`"done"` at instant 3. -/
def subDone : TodoItem :=
  { id := "item1", listId := "list1", name := "task", description := none,
    state := "done", dueDate := none, completedDate := some 5,
    createdDate := none, updatedDate := some 3 }

/-- A ten-element list used to exercise pagination. -/
def tenNats : List Nat := [10, 11, 12, 13, 14, 15, 16, 17, 18, 19]

/-! Helper lemmas. -/

/-- A successful list-scoped lookup pins the item's `listId` and the raw read. -/
lemma getListItemAsync_eq_some {store : List TodoItem} {listId itemId : String}
    {it : TodoItem} (h : getListItemAsync store listId itemId = some it) :
    it.listId = listId ∧ readItemAsync store itemId = some it := by
  unfold getListItemAsync at h
  cases hr : readItemAsync store itemId with
  | none => rw [hr] at h; simp at h
  | some a =>
    rw [hr] at h
    by_cases hl : a.listId = listId
    · simp [hl] at h
      subst h
      exact ⟨hl, rfl⟩
    · simp [hl] at h

/-- The reopen test of `UpdateListItem` needs the existing state to be done. -/
lemma reopenFires_eq_false_of_oldState (oldState : String) (oldDueDate : Option Int)
    (reqState : String) (reqDueDate : Option Int) (now : Int)
    (h : oldState ≠ "done") :
    reopenFires oldState oldDueDate reqState reqDueDate now = false := by
  simp [reopenFires, h]

/-- The reopen test of `UpdateListItem` needs the requested state to be done. -/
lemma reopenFires_eq_false_of_reqState (oldState : String) (oldDueDate : Option Int)
    (reqState : String) (reqDueDate : Option Int) (now : Int)
    (h : reqState ≠ "done") :
    reopenFires oldState oldDueDate reqState reqDueDate now = false := by
  simp [reopenFires, h]

/-- The remaining-time text built by the countdown's non-past branch is never
the overdue text `"Due!"`: its separator pieces alone are already longer. -/
lemma rendered_text_ne_due (a b c d : Int) (loc : String) :
    toString a ++ "d " ++ toString b ++ "h " ++ toString c ++ "m " ++
      toString d ++ "s" ++ loc ≠ "Due!" := by
  intro h
  have hlen := congrArg String.length h
  simp only [String.length_append] at hlen
  have h1 : ("d " : String).length = 2 := rfl
  have h2 : ("h " : String).length = 2 := rfl
  have h3 : ("m " : String).length = 2 := rfl
  have h4 : ("s" : String).length = 1 := rfl
  have h5 : ("Due!" : String).length = 4 := rfl
  rw [h1, h2, h3, h4, h5] at hlen
  omega

/-! Claim theorems. -/

/-- C1 counterexample: for the existing item `exDoneNoDue` (state done,
completedDate 5) and the request `reqDoneNoCompleted` (state done, no
completedDate), `UpdateListItem` produces state `"done"` with `completedDate =
none`, and the reopen rule did not fire — so "completedDate is non-null iff
state is Done, with the sole exception of the reopen transition" is false. -/
theorem C1_counterexample :
    (updateListItemCore exDoneNoDue reqDoneNoCompleted 0).state = "done" ∧
    (updateListItemCore exDoneNoDue reqDoneNoCompleted 0).completedDate = none ∧
    reopenFires exDoneNoDue.state exDoneNoDue.dueDate reqDoneNoCompleted.state
      reqDoneNoCompleted.dueDate 0 = false := by
  decide

/-- C1 amended: after either update transition, `completedDate ≠ none ↔ state =
"done"` holds whenever not both the existing and the requested state are done.
When both are done, `UpdateListItem` sets `completedDate` to the requested
completedDate unconditionally (so it can be null with state done, or non-null
with state todo after a reopen), and `UpdateListItemWithStateLogic` sets
`completedDate` to null with state todo when its reopen test fires, otherwise
to the requested completedDate with state done. -/
theorem C1_completedDate_iff_done_amended :
    (∀ (ex : TodoItem) (req : CreateUpdateTodoItem) (now : Int),
        ¬(ex.state = "done" ∧ req.state = "done") →
        ((updateListItemCore ex req now).completedDate ≠ none ↔
          (updateListItemCore ex req now).state = "done")) ∧
    (∀ (ex : TodoItem) (req : CreateUpdateTodoItem) (now : Int),
        ex.state = "done" → req.state = "done" →
        (updateListItemCore ex req now).completedDate = req.completedDate) ∧
    (∀ (ex : TodoItem) (s : String) (nd nc : Option Int) (now : Int),
        ¬(ex.state = "done" ∧ s = "done") →
        ((updateListItemWithStateLogicCore ex s nd nc now).completedDate ≠ none ↔
          (updateListItemWithStateLogicCore ex s nd nc now).state = "done")) ∧
    (∀ (ex : TodoItem) (nd nc : Option Int) (now : Int),
        ex.state = "done" →
        if reopenFiresW ex.state "done" nd now then
          (updateListItemWithStateLogicCore ex "done" nd nc now).completedDate = none ∧
          (updateListItemWithStateLogicCore ex "done" nd nc now).state = "todo"
        else
          (updateListItemWithStateLogicCore ex "done" nd nc now).completedDate = nc ∧
          (updateListItemWithStateLogicCore ex "done" nd nc now).state = "done") := by
  refine ⟨?_, ?_, ?_, ?_⟩
  · intro ex req now h
    by_cases hreq : req.state = "done"
    · have hex : ex.state ≠ "done" := fun hx => h ⟨hx, hreq⟩
      have hrf := reopenFires_eq_false_of_oldState ex.state ex.dueDate
        req.state req.dueDate now hex
      simp [updateListItemCore, hrf, hreq, hex]
    · have hrf := reopenFires_eq_false_of_reqState ex.state ex.dueDate
        req.state req.dueDate now hreq
      simp [updateListItemCore, hrf, hreq]
  · intro ex req now hex hreq
    simp [updateListItemCore, hreq, hex]
  · intro ex s nd nc now h
    by_cases hs : s = "done"
    · subst hs
      have hex : ex.state ≠ "done" := fun hx => h ⟨hx, rfl⟩
      have hrf : reopenFiresW ex.state "done" nd now = false := by
        simp [reopenFiresW, hex]
      simp [updateListItemWithStateLogicCore, hrf, hex]
    · have hrf : reopenFiresW ex.state s nd now = false := by
        simp [reopenFiresW, hs]
      simp [updateListItemWithStateLogicCore, hrf, hs]
  · intro ex nd nc now hex
    rw [hex]
    by_cases hr : reopenFiresW "done" "done" nd now
    · simp only [hr, if_true]
      simp [updateListItemWithStateLogicCore, hr, hex]
    · simp only [hr, if_false]
      simp [updateListItemWithStateLogicCore, hr, hex]

/-- C1 witness: the amended iff instantiated on an in-progress item being
completed at instant 0. -/
theorem C1_witness :
    (updateListItemCore exInProgress reqDoneCompletion 0).completedDate ≠ none ↔
      (updateListItemCore exInProgress reqDoneCompletion 0).state = "done" :=
  C1_completedDate_iff_done_amended.1 exInProgress reqDoneCompletion 0 (by decide)

/-- C2: `UpdateListItemWithStateLogic` reopens any done item kept done whenever
the requested due date is strictly after `now` — no "due date changed"
precondition and no one-hour floor — and consequently there are inputs on which
the two update entry points produce different resulting items: a thirty-minute
forward move keeps the item done under `UpdateListItem` but reopens it under
`UpdateListItemWithStateLogic`. -/
theorem C2_reopen_strictness_divergence :
    (∀ (ex : TodoItem) (d : Int) (nc : Option Int) (now : Int),
        ex.state = "done" → now < d →
        (updateListItemWithStateLogicCore ex "done" (some d) nc now).state = "todo" ∧
        (updateListItemWithStateLogicCore ex "done" (some d) nc now).completedDate = none) ∧
    ((updateListItemCore exDoneDue1000 reqDonePlus30min 0).state = "done" ∧
     (updateListItemWithStateLogicCore exDoneDue1000 "done" (some 1800000) (some 5) 0).state
       = "todo" ∧
     updateListItemCore exDoneDue1000 reqDonePlus30min 0 ≠
       updateListItemWithStateLogicCore exDoneDue1000 "done" (some 1800000) (some 5) 0) := by
  constructor
  · intro ex d nc now hex hd
    have hrf : reopenFiresW ex.state "done" (some d) now = true := by
      simp [reopenFiresW, hex, hd]
    simp [updateListItemWithStateLogicCore, hrf]
  · decide

/-- C2 witness: the loose reopen rule instantiated on `exDoneDue1000` with an
unchanged-scale due date 1800000 (thirty minutes) and `now = 0`. -/
theorem C2_witness :
    (updateListItemWithStateLogicCore exDoneDue1000 "done" (some 1800000) (some 5) 0).state
      = "todo" ∧
    (updateListItemWithStateLogicCore exDoneDue1000 "done" (some 1800000) (some 5) 0).completedDate
      = none :=
  C2_reopen_strictness_divergence.1 exDoneDue1000 1800000 (some 5) 0 rfl (by decide)

/-- C3: at the failing input — existing item done with due date 0 and
completedDate 10, request keeping state done, moving the due date to 7200000
(two hours out, `now = 0`), and supplying completedDate 99 — the reopen rule
fires and `UpdateListItem` sets the state to todo, but the unconditional second
if-chain then overwrites the just-nulled completedDate with the requested value
99, contradicting the code's own comment "Clear completed date since it's no
longer done" and the claimed `completedDate = null`. -/
theorem C3_reopen_leaves_requested_completedDate :
    (updateListItemCore exDoneDueZero reqReopenWithCompleted 0).state = "todo" ∧
    (updateListItemCore exDoneDueZero reqReopenWithCompleted 0).completedDate = some 99 ∧
    reopenFires exDoneDueZero.state exDoneDueZero.dueDate reqReopenWithCompleted.state
      reqReopenWithCompleted.dueDate 0 = true := by
  decide

/-- C4: completion rule of `UpdateListItem` — for every existing item not in
state done and every request with state done, the result is done, its
completedDate is the requested one when supplied and otherwise `now`, and its
dueDate is exactly the requested dueDate (never cleared). -/
theorem C4_completion_rule :
    ∀ (ex : TodoItem) (req : CreateUpdateTodoItem) (now : Int),
      ex.state ≠ "done" → req.state = "done" →
      (updateListItemCore ex req now).state = "done" ∧
      (updateListItemCore ex req now).completedDate = some (req.completedDate.getD now) ∧
      (updateListItemCore ex req now).dueDate = req.dueDate := by
  intro ex req now hex hreq
  have hrf := reopenFires_eq_false_of_oldState ex.state ex.dueDate
    req.state req.dueDate now hex
  rw [hreq] at hrf
  simp [updateListItemCore, hrf, hreq, hex]

/-- C4 witness: completing the in-progress item `exInProgress` (due date 42)
with no completedDate supplied at `now = 7`. -/
theorem C4_witness :
    (updateListItemCore exInProgress reqDoneCompletion 7).state = "done" ∧
    (updateListItemCore exInProgress reqDoneCompletion 7).completedDate = some 7 ∧
    (updateListItemCore exInProgress reqDoneCompletion 7).dueDate = some 42 :=
  C4_completion_rule exInProgress reqDoneCompletion 7 (by decide) rfl

/-- C5 counterexample: a todo item whose zoned due date equals `now` (due 0,
offset 0, now 0) satisfies "due ≤ now", yet the countdown renders the remaining
time `"0d 0h 0m 0s"` instead of the claimed `"Due!"` — `isPast` is strict. -/
theorem C5_counterexample :
    renderCountdownColumn "todo" (some 0) 0 0 none = ("0d 0h 0m 0s", "#d13438") ∧
    ("0d 0h 0m 0s" : String) ≠ "Due!" := by
  decide

/-- C5 amended: for every non-done item with a due date, the projection renders
`("Due!", overdue red)` exactly when the due date converted to the supplied
timezone is strictly before `now` — so a converted due date exactly equal to
`now` is not the overdue rendering. -/
theorem C5_overdue_boundary_amended :
    (∀ (state : String) (due now tzOffset : Int) (city : Option String),
        state ≠ "done" → toZonedTime due tzOffset < now →
        renderCountdownColumn state (some due) now tzOffset city = ("Due!", "#d13438")) ∧
    (∀ (state : String) (due now tzOffset : Int) (city : Option String),
        state ≠ "done" →
        ((renderCountdownColumn state (some due) now tzOffset city).1 = "Due!" ↔
          toZonedTime due tzOffset < now)) := by
  have hpast : ∀ (state : String) (due now tzOffset : Int) (city : Option String),
      state ≠ "done" → toZonedTime due tzOffset < now →
      renderCountdownColumn state (some due) now tzOffset city = ("Due!", "#d13438") := by
    intro state due now tzOffset city hstate hlt
    have hp : isPast (toZonedTime due tzOffset) now = true := by
      simp [isPast, hlt]
    simp [renderCountdownColumn, hstate, hp]
  refine ⟨hpast, ?_⟩
  intro state due now tzOffset city hstate
  constructor
  · intro h
    by_contra hnot
    have hp : isPast (toZonedTime due tzOffset) now = false := by
      simp [isPast, hnot]
    have hne : (renderCountdownColumn state (some due) now tzOffset city).1 ≠ "Due!" := by
      simp [renderCountdownColumn, hstate, hp]
      exact rendered_text_ne_due _ _ _ _ _
    exact hne h
  · intro hlt
    rw [hpast state due now tzOffset city hstate hlt]

/-- C5 witness: overdue rendering at due -5, offset 0, now 0. -/
theorem C5_witness :
    renderCountdownColumn "todo" (some (-5)) 0 0 none = ("Due!", "#d13438") :=
  C5_overdue_boundary_amended.1 "todo" (-5) 0 0 none (by decide) (by decide)

/-- C6: `GetListItemAsync` returns not-found whenever the item stored under the
requested item id belongs to a different list, and returns an item only when
that item is the one stored under the id and its `listId` matches the request. -/
theorem C6_cross_list_isolation :
    (∀ (store : List TodoItem) (listId itemId : String) (it : TodoItem),
        readItemAsync store itemId = some it → it.listId ≠ listId →
        getListItemAsync store listId itemId = none) ∧
    (∀ (store : List TodoItem) (listId itemId : String) (it : TodoItem),
        getListItemAsync store listId itemId = some it →
        it.listId = listId ∧ readItemAsync store itemId = some it) := by
  constructor
  · intro store listId itemId it h hne
    simp [getListItemAsync, h, hne]
  · intro store listId itemId it h
    exact getListItemAsync_eq_some h

/-- C6 witness: item `"X"` stored under list `"B"` is not found through list
`"A"`, although the raw read by id succeeds. -/
theorem C6_witness :
    getListItemAsync [itemInListB] "A" "X" = none :=
  C6_cross_list_isolation.1 [itemInListB] "A" "X" itemInListB (by decide) (by decide)

/-- C7: `ToListAsync` pagination — skip is applied before the limit, so with
both given the result is the `skip`-dropped prefix of length at most `limit`,
and position `i < limit` of the page is position `skip + i` of the underlying
sequence; an absent skip drops nothing from the front, an absent limit
truncates nothing, and with both absent the full result set is returned. -/
theorem C7_pagination_skip_before_limit :
    (∀ (α : Type) (l : List α), toListAsync l none none = l) ∧
    (∀ (α : Type) (l : List α) (b : Nat), toListAsync l none (some b) = l.take b) ∧
    (∀ (α : Type) (l : List α) (s : Nat), toListAsync l (some s) none = l.drop s) ∧
    (∀ (α : Type) (l : List α) (s b : Nat),
        toListAsync l (some s) (some b) = (l.drop s).take b) ∧
    (∀ (α : Type) (l : List α) (s b i : Nat), i < b →
        (toListAsync l (some s) (some b))[i]? = l[s + i]?) := by
  refine ⟨fun α l => rfl, fun α l b => rfl, fun α l s => rfl, fun α l s b => rfl, ?_⟩
  intro α l s b i hib
  show ((l.drop s).take b)[i]? = l[s + i]?
  rw [List.getElem?_take_of_lt hib, List.getElem?_drop]

/-- C7 witness: over ten items, skip 2 and limit 3 return exactly positions 2-4,
and position 0 of the page is position 2 of the sequence. -/
theorem C7_witness :
    (toListAsync tenNats (some 2) (some 3))[0]? = tenNats[2 + 0]? :=
  C7_pagination_skip_before_limit.2.2.2.2 Nat tenNats 2 3 0 (by decide)

/-- C8: under `UpdateListItem`, a done item with no stored due date never
reopens — for every request keeping state done, the result stays done,
whatever the requested due date, because the reopen check requires
`oldDueDate.HasValue`. -/
theorem C8_done_without_due_never_reopens :
    ∀ (ex : TodoItem) (req : CreateUpdateTodoItem) (now : Int),
      ex.state = "done" → ex.dueDate = none → req.state = "done" →
      (updateListItemCore ex req now).state = "done" := by
  intro ex req now hex hdue hreq
  have hrf : reopenFires ex.state ex.dueDate req.state req.dueDate now = false := by
    simp [reopenFires, hdue]
  rw [hreq, hex] at hrf
  simp [updateListItemCore, hrf, hreq, hex]

/-- C8 witness: `exDoneNoDue` stays done even when the request pushes the due
date two hours past `now = 0`. -/
theorem C8_witness :
    (updateListItemCore exDoneNoDue reqDoneFarFuture 0).state = "done" :=
  C8_done_without_due_never_reopens exDoneNoDue reqDoneFarFuture 0 rfl rfl rfl

/-- C9: every item the detail pane's save submits has `completedDate` non-null
iff its state is done — when the selected state is done it carries the item's
prior completedDate or, if absent, the current time, and for any other state it
carries no completedDate. -/
theorem C9_detail_pane_completedDate_invariant :
    ∀ (item : TodoItem) (name : String) (description : Option String)
      (combinedDueDate : Option Int) (state : String) (now : Int)
      (submitted : TodoItem),
      saveTodoItemSubmission item name description combinedDueDate state now = some submitted →
      (submitted.completedDate ≠ none ↔ submitted.state = "done") ∧
      (state = "done" → submitted.completedDate = some (item.completedDate.getD now)) ∧
      (state ≠ "done" → submitted.completedDate = none) := by
  intro item name description combinedDueDate state now submitted h
  unfold saveTodoItemSubmission at h
  by_cases hid : item.id == ""
  · simp [hid] at h
  · simp only [hid, Bool.false_eq_true, if_false, Option.some.injEq] at h
    subst h
    by_cases hs : state = "done"
    · simp [hs]
    · simp [hs]

/-- C9 witness: saving `exDoneNoDue` with state `"done"` at instant 3 submits
`subDone`, whose completedDate is the preserved prior value 5. -/
theorem C9_witness :
    (subDone.completedDate ≠ none ↔ subDone.state = "done") ∧
    ("done" = "done" → subDone.completedDate = some (exDoneNoDue.completedDate.getD 3)) ∧
    ("done" ≠ "done" → subDone.completedDate = none) :=
  C9_detail_pane_completedDate_invariant exDoneNoDue "task" none none "done" 3 subDone
    (by decide)

/-- C10: `DeleteListItem` returns NotFound and leaves the store untouched
whenever the list-scoped lookup fails — in particular when the item stored
under the id belongs to a different list — and the repository delete runs only
after a successful scoped lookup. -/
theorem C10_delete_requires_scoped_lookup :
    (∀ (store : List TodoItem) (listId itemId : String),
        getListItemAsync store listId itemId = none →
        deleteListItemEndpoint store listId itemId = (DeleteOutcome.notFound, store)) ∧
    (∀ (store : List TodoItem) (listId itemId : String) (it : TodoItem),
        readItemAsync store itemId = some it → it.listId ≠ listId →
        deleteListItemEndpoint store listId itemId = (DeleteOutcome.notFound, store)) ∧
    (∀ (store : List TodoItem) (listId itemId : String),
        (deleteListItemEndpoint store listId itemId).1 = DeleteOutcome.noContent →
        ∃ it, getListItemAsync store listId itemId = some it ∧ it.listId = listId) := by
  refine ⟨?_, ?_, ?_⟩
  · intro store listId itemId h
    simp [deleteListItemEndpoint, h]
  · intro store listId itemId it h hne
    simp [deleteListItemEndpoint, getListItemAsync, h, hne]
  · intro store listId itemId h
    unfold deleteListItemEndpoint at h
    cases hg : getListItemAsync store listId itemId with
    | none => rw [hg] at h; simp at h
    | some it => exact ⟨it, rfl, (getListItemAsync_eq_some hg).1⟩

/-- C10 witness: deleting item `"X"` (stored under list `"B"`) through list
`"A"` returns NotFound and leaves the store unchanged. -/
theorem C10_witness :
    deleteListItemEndpoint [itemInListB] "A" "X" = (DeleteOutcome.notFound, [itemInListB]) :=
  C10_delete_requires_scoped_lookup.1 [itemInListB] "A" "X" (by decide)
